import Mathlib

/-!
A shallow embedding of `src/SVGSkin.js` (the AdaptiveVectorSkin component).

JavaScript numbers are modelled as `ℚ`; scale factors that the code only
ever sets to integers (`_textureScale`, `_maxTextureScale`) are modelled
as `ℕ`.  The rotation-center fields, whose NaN sentinel semantics matter,
are modelled with an explicit `JSNum` type where `nan` mirrors JavaScript
`NaN` (in particular `nan === x` is false for every `x`).

Asynchronous rasterization (`SvgRenderer._draw(scale, callback)`) is
modelled by a list of pending tasks; a scheduler step may complete any
pending task, at which point the environment supplies the canvas contents
(bitmap tag and dimensions).  Each method of the class is a pure function
from state to state, and `step` packages them into a transition function
whose reachable set models all executions.
-/

namespace SVGSkin

/-- A JavaScript number as far as the rotation-center logic needs it:
either `NaN` or an ordinary (rational) value. -/
inductive JSNum where
  | nan : JSNum
  | num (q : ℚ) : JSNum
deriving DecidableEq

/-- JavaScript strict equality `===` on numbers: `NaN` is not equal to
anything, including itself; ordinary values compare by value. -/
def jsEq : JSNum → JSNum → Bool
  | .nan, _ => false
  | _, .nan => false
  | .num a, .num b => decide (a = b)

/-- Subtraction of a plain number from a `JSNum` (`x - viewOffset[i]`);
`NaN` propagates as in JavaScript. -/
def JSNum.subQ : JSNum → ℚ → JSNum
  | .nan, _ => .nan
  | .num a, q => .num (a - q)

/-- A pending asynchronous rasterization task, i.e. a queued
`SvgRenderer._draw(scale, callback)` whose callback has not yet run.
`load` is the 1x callback scheduled by `setSVG` (carrying the optional
`rotationCenter` argument of `setSVG`); `upgrade` is a resolution-upgrade
callback scheduled by `getTexture`, carrying the captured `newScale`. -/
inductive RTask where
  | load (rc : Option (JSNum × JSNum)) : RTask
  | upgrade (scale : ℕ) : RTask
deriving DecidableEq

/-- The mutable fields of an `SVGSkin` instance (plus the rotation-center
slot owned by the base `Skin` collaborator and an instrumentation counter
for calls to `super.setRotationCenter`). `texture`/`silhouette` hold the
tag of the bitmap last uploaded (`none` = no texture / never updated). -/
structure State where
  textureScale : ℕ
  maxTextureScale : ℕ
  size : ℚ × ℚ
  viewOffset : ℚ × ℚ
  rawRotationCenter : JSNum × JSNum
  baseRotationCenter : JSNum × JSNum
  texture : Option ℕ
  silhouette : Option ℕ
  pending : List RTask
  baseUpdates : ℕ
deriving DecidableEq

/-- The state established by the constructor: `_textureScale = 1`,
`_maxTextureScale = 0`, `size = [0,0]`, `_viewOffset = [0,0]`,
`_rawRotationCenter = [NaN, NaN]`, `_texture = null`.  The rotation
center of the base `Skin` starts at the origin (modelled from the spec:
the base skin lifecycle collaborator owns this slot; `Skin.js` is not
part of the source under scrutiny). -/
def initState : State :=
  { textureScale := 1
    maxTextureScale := 0
    size := (0, 0)
    viewOffset := (0, 0)
    rawRotationCenter := (.nan, .nan)
    baseRotationCenter := (.num 0, .num 0)
    texture := none
    silhouette := none
    pending := []
    baseUpdates := 0 }

/-- The method `setRotationCenter(x, y)`: apply only when
`x !== this._rawRotationCenter[0] || y !== this._rawRotationCenter[1]`;
when applying, store `(x, y)` and call
`super.setRotationCenter(x - this._viewOffset[0], y - this._viewOffset[1])`
(modelled from the spec: the base collaborator stores the pair it is
handed; `baseUpdates` counts these calls). -/
def setRotationCenter (x y : JSNum) (s : State) : State :=
  if !jsEq x s.rawRotationCenter.1 || !jsEq y s.rawRotationCenter.2 then
    { s with
      rawRotationCenter := (x, y)
      baseRotationCenter := (x.subQ s.viewOffset.1, y.subQ s.viewOffset.2)
      baseUpdates := s.baseUpdates + 1 }
  else s

/-- The `for (testScale; maxDimension * testScale <= MAX_TEXTURE_DIMENSION;
testScale *= 2) this._maxTextureScale = testScale;` loop from the `setSVG`
callback, with `MAX_TEXTURE_DIMENSION = 2048`.  `acc` is the current value
of `this._maxTextureScale` (it is `1` when the loop starts).  The loop is
given explicit fuel to make it structurally recursive; fuel `12` is enough
for every canvas with a positive dimension, because `testScale` starts at
`2` and after eleven doublings reaches `4096 > 2048`
(see `mtsLoop_fuel_irrelevant`). -/
def mtsLoop : ℕ → ℕ → ℕ → ℕ → ℕ
  | 0, _, _, acc => acc
  | fuel + 1, maxDim, testScale, acc =>
      if maxDim * testScale ≤ 2048 then mtsLoop fuel maxDim (testScale * 2) testScale
      else acc

/-- The value of `this._maxTextureScale` as computed by the `setSVG`
callback for a
canvas whose larger dimension is `maxDim`: the loop starts with
`testScale = 2` and `this._maxTextureScale = 1`. -/
def computeMaxTextureScale (maxDim : ℕ) : ℕ :=
  mtsLoop 12 maxDim 2 1

/-- The `while ((newScale < this._maxTextureScale) && (requestedScale >=
1.5 * newScale)) newScale *= 2;` loop from `getTexture`, with explicit
fuel.  `getTexture` runs it with fuel `maxTS`, which is always enough:
each iteration requires `newScale < maxTS` and at least doubles `newScale`
starting from `1`, so the loop exits after at most `maxTS` iterations
(see `upgradeLoop_fuel_irrelevant`). -/
def upgradeLoop : ℕ → ℕ → ℚ → ℕ → ℕ
  | 0, _, _, newScale => newScale
  | fuel + 1, maxTS, req, newScale =>
      if newScale < maxTS ∧ (3 / 2 : ℚ) * (newScale : ℚ) ≤ req then
        upgradeLoop fuel maxTS req (newScale * 2)
      else newScale

/-- The line `const scaleMax = scale ? Math.max(Math.abs(scale[0]),
Math.abs(scale[1])) : 100;` from `getTexture`. -/
def scaleMaxOf : Option (ℚ × ℚ) → ℚ
  | some (a, b) => max |a| |b|
  | none => 100

/-- The method `getTexture(scale)`: compute the requested scale, run the doubling
loop, and when the scale changed record it and schedule a rasterization
at the new scale; return the (unchanged) texture handle. -/
def getTexture (scale : Option (ℚ × ℚ)) (s : State) : State × Option ℕ :=
  let scaleMax := scaleMaxOf scale
  let requestedScale : ℚ := min (scaleMax / 100) (s.maxTextureScale : ℚ)
  let newScale := upgradeLoop s.maxTextureScale s.maxTextureScale requestedScale s.textureScale
  let s' :=
    if s.textureScale ≠ newScale then
      { s with
        textureScale := newScale
        pending := s.pending ++ [RTask.upgrade newScale] }
    else s
  (s', s'.texture)

/-- The callback scheduled by `setSVG` via `this._svgRenderer._draw(1, …)`,
run when the environment delivers a canvas of dimensions `w × h` holding
bitmap `bitmap`:  set `this._textureScale = this._maxTextureScale = 1`,
upload the bitmap (creating the texture if needed) and update the
silhouette, recompute `this._maxTextureScale` from the canvas dimensions,
then resolve the rotation center (`defaultRC` models the value of
`this.calculateRotationCenter()` when no explicit center was supplied)
and apply it through `setRotationCenter`.  The callback performs no
staleness check. -/
def loadComplete (rc : Option (JSNum × JSNum)) (w h bitmap : ℕ)
    (defaultRC : JSNum × JSNum) (s : State) : State :=
  let s1 := { s with
    textureScale := 1
    maxTextureScale := computeMaxTextureScale (max w h)
    texture := some bitmap
    silhouette := some bitmap }
  let c := rc.getD defaultRC
  setRotationCenter c.1 c.2 s1

/-- The callback scheduled by `getTexture` for an upgrade to `taskScale`:
`if (this._textureScale === newScale)` upload the bitmap into the existing
texture and update the silhouette, otherwise discard the stale result. -/
def upgradeComplete (taskScale bitmap : ℕ) (s : State) : State :=
  if s.textureScale = taskScale then
    { s with texture := some bitmap, silhouette := some bitmap }
  else s

/-- The synchronous body of `setSVG(svgData, rotationCenter)`.
`loadResult` is what `this._svgRenderer.loadString(svgData)` produces:
`none` means the rasterizer rejected the source by throwing, so nothing
after the `loadString` call runs and the exception propagates; `some`
carries the `size` and `viewOffset` reported by the renderer.  On success the
size and view offset are stored synchronously, `_rawRotationCenter` is
reset to the `[NaN, NaN]` sentinel, and one rasterization task at scale 1
is scheduled. -/
def setSVG (loadResult : Option ((ℚ × ℚ) × (ℚ × ℚ)))
    (rc : Option (JSNum × JSNum)) (s : State) : State :=
  match loadResult with
  | none => s
  | some (sz, vo) =>
      { s with
        size := sz
        viewOffset := vo
        rawRotationCenter := (.nan, .nan)
        pending := s.pending ++ [RTask.load rc] }

/-- The method `dispose()`: delete the GPU texture and null the handle. -/
def dispose (s : State) : State :=
  { s with texture := none }

/-- One externally triggered action: a `getTexture` call, a `setSVG` call
(with the rasterizer outcome chosen by the environment), the completion
of the `i`-th pending rasterization task (with the canvas contents and
default rotation center chosen by the environment), a `setRotationCenter`
call, or `dispose`. -/
inductive Act where
  | getTex (scale : Option (ℚ × ℚ)) : Act
  | loadSVG (result : Option ((ℚ × ℚ) × (ℚ × ℚ))) (rc : Option (JSNum × JSNum)) : Act
  | complete (i : ℕ) (w h bitmap : ℕ) (defaultRC : JSNum × JSNum) : Act
  | setCenter (x y : JSNum) : Act
  | disposeSkin : Act

/-- The transition function.  Completing a task removes it from the
pending list and runs its callback; a `complete` with an out-of-range
index is a no-op. -/
def step (s : State) (a : Act) : State :=
  match a with
  | .getTex sc => (getTexture sc s).1
  | .loadSVG r rc => setSVG r rc s
  | .complete i w h b d =>
      match s.pending[i]? with
      | some (.load rc) => loadComplete rc w h b d { s with pending := s.pending.eraseIdx i }
      | some (.upgrade n) => upgradeComplete n b { s with pending := s.pending.eraseIdx i }
      | none => s
  | .setCenter x y => setRotationCenter x y s
  | .disposeSkin => dispose s

/-- The states an `SVGSkin` instance can actually be in: everything
reachable by steps from the state the constructor establishes. -/
inductive Reach : State → Prop where
  | start : Reach initState
  | tail {s : State} (a : Act) : Reach s → Reach (step s a)

/-- Does action `a`, taken from state `s`, complete the 1x rasterization
task of the load pipeline (as opposed to an upgrade task or a
non-completion action)? -/
def isLoadCompletion (s : State) : Act → Bool
  | .complete i _ _ _ _ =>
      match s.pending[i]? with
      | some (.load _) => true
      | _ => false
  | _ => false

/-- States reachable without any load-pipeline rasterization ever having
completed: the life of the instance before the rasterization of the
first load lands. -/
inductive ReachNoLoad : State → Prop where
  | start : ReachNoLoad initState
  | tail {s : State} (a : Act) : ReachNoLoad s → isLoadCompletion s a = false →
      ReachNoLoad (step s a)

/-! Projection lemmas: which fields each operation leaves untouched. -/

@[simp] lemma setRotationCenter_textureScale (x y : JSNum) (s : State) :
    (setRotationCenter x y s).textureScale = s.textureScale := by
  unfold setRotationCenter; split <;> rfl

@[simp] lemma setRotationCenter_maxTextureScale (x y : JSNum) (s : State) :
    (setRotationCenter x y s).maxTextureScale = s.maxTextureScale := by
  unfold setRotationCenter; split <;> rfl

@[simp] lemma setRotationCenter_texture (x y : JSNum) (s : State) :
    (setRotationCenter x y s).texture = s.texture := by
  unfold setRotationCenter; split <;> rfl

@[simp] lemma setRotationCenter_silhouette (x y : JSNum) (s : State) :
    (setRotationCenter x y s).silhouette = s.silhouette := by
  unfold setRotationCenter; split <;> rfl

@[simp] lemma setRotationCenter_pending (x y : JSNum) (s : State) :
    (setRotationCenter x y s).pending = s.pending := by
  unfold setRotationCenter; split <;> rfl

@[simp] lemma setRotationCenter_size (x y : JSNum) (s : State) :
    (setRotationCenter x y s).size = s.size := by
  unfold setRotationCenter; split <;> rfl

@[simp] lemma setRotationCenter_viewOffset (x y : JSNum) (s : State) :
    (setRotationCenter x y s).viewOffset = s.viewOffset := by
  unfold setRotationCenter; split <;> rfl

@[simp] lemma loadComplete_textureScale (rc : Option (JSNum × JSNum)) (w h b : ℕ)
    (d : JSNum × JSNum) (s : State) :
    (loadComplete rc w h b d s).textureScale = 1 := by
  unfold loadComplete; simp

@[simp] lemma loadComplete_maxTextureScale (rc : Option (JSNum × JSNum)) (w h b : ℕ)
    (d : JSNum × JSNum) (s : State) :
    (loadComplete rc w h b d s).maxTextureScale = computeMaxTextureScale (max w h) := by
  unfold loadComplete; simp

@[simp] lemma loadComplete_texture (rc : Option (JSNum × JSNum)) (w h b : ℕ)
    (d : JSNum × JSNum) (s : State) :
    (loadComplete rc w h b d s).texture = some b := by
  unfold loadComplete; simp

@[simp] lemma loadComplete_silhouette (rc : Option (JSNum × JSNum)) (w h b : ℕ)
    (d : JSNum × JSNum) (s : State) :
    (loadComplete rc w h b d s).silhouette = some b := by
  unfold loadComplete; simp

@[simp] lemma upgradeComplete_textureScale (n b : ℕ) (s : State) :
    (upgradeComplete n b s).textureScale = s.textureScale := by
  unfold upgradeComplete; split <;> rfl

@[simp] lemma upgradeComplete_maxTextureScale (n b : ℕ) (s : State) :
    (upgradeComplete n b s).maxTextureScale = s.maxTextureScale := by
  unfold upgradeComplete; split <;> rfl

/-! Loop lemmas. -/

/-- If the loop guard fails at entry, the doubling loop returns its input,
whatever the fuel. -/
lemma upgradeLoop_stop (fuel maxTS : ℕ) (req : ℚ) (ns : ℕ)
    (h : ¬(ns < maxTS ∧ (3 / 2 : ℚ) * (ns : ℚ) ≤ req)) :
    upgradeLoop fuel maxTS req ns = ns := by
  cases fuel with
  | zero => rfl
  | succ fuel => simp [upgradeLoop, h]

/-- The doubling loop never decreases the scale. -/
lemma upgradeLoop_le (fuel : ℕ) : ∀ (maxTS : ℕ) (req : ℚ) (ns : ℕ),
    ns ≤ upgradeLoop fuel maxTS req ns := by
  induction fuel with
  | zero => intro maxTS req ns; exact le_rfl
  | succ fuel ih =>
      intro maxTS req ns
      rw [upgradeLoop]
      split
      · exact le_trans (by omega) (ih maxTS req (ns * 2))
      · exact le_rfl

/-- Starting from a power of two not exceeding the (power-of-two) cap,
the doubling loop yields a power of two not exceeding the cap. -/
lemma upgradeLoop_pow (fuel : ℕ) : ∀ (req : ℚ) (a b : ℕ), 2 ^ a ≤ 2 ^ b →
    ∃ c, upgradeLoop fuel (2 ^ b) req (2 ^ a) = 2 ^ c ∧ 2 ^ c ≤ 2 ^ b := by
  induction fuel with
  | zero => intro req a b hab; exact ⟨a, rfl, hab⟩
  | succ fuel ih =>
      intro req a b hab
      rw [upgradeLoop]
      split
      · rename_i hguard
        have hab2 : 2 ^ (a + 1) ≤ 2 ^ b := by
          have : a < b := (Nat.pow_lt_pow_iff_right (by norm_num)).mp hguard.1
          exact Nat.pow_le_pow_right (by norm_num) (by omega)
        have : (2 : ℕ) ^ a * 2 = 2 ^ (a + 1) := by rw [pow_succ]
        rw [this]
        exact ih req (a + 1) b hab2
      · exact ⟨a, rfl, hab⟩

/-- One unit of fuel beyond the natural exit point of the loop changes
nothing: if the guard is sure to fail within `fuel` doublings, fuel
`fuel + 1` and fuel `fuel` agree. -/
lemma upgradeLoop_fuel_stable (fuel : ℕ) : ∀ (maxTS : ℕ) (req : ℚ) (ns : ℕ),
    maxTS ≤ ns * 2 ^ fuel →
    upgradeLoop (fuel + 1) maxTS req ns = upgradeLoop fuel maxTS req ns := by
  induction fuel with
  | zero =>
      intro maxTS req ns h
      simp only [pow_zero, mul_one] at h
      exact upgradeLoop_stop 1 maxTS req ns (by omega)
  | succ fuel ih =>
      intro maxTS req ns h
      rw [upgradeLoop]
      conv_rhs => rw [upgradeLoop]
      split
      · have h2 : ns * 2 ^ (fuel + 1) = ns * 2 * 2 ^ fuel := by ring
        exact ih maxTS req (ns * 2) (h2 ▸ h)
      · rfl

/-- The fuel `maxTS` that `getTexture` hands to the doubling loop is
sufficient: any extra fuel produces the same result (the loop exits on
its own once `newScale`, which at least doubles from a positive start,
reaches `maxTS`). -/
lemma upgradeLoop_fuel_irrelevant (k maxTS : ℕ) (req : ℚ) (ns : ℕ) (hns : 0 < ns) :
    upgradeLoop (maxTS + k) maxTS req ns = upgradeLoop maxTS maxTS req ns := by
  induction k with
  | zero => rfl
  | succ k ih =>
      rw [← ih]
      have : maxTS + (k + 1) = (maxTS + k) + 1 := by omega
      rw [this]
      apply upgradeLoop_fuel_stable
      calc maxTS ≤ 2 ^ maxTS := le_of_lt (Nat.lt_two_pow maxTS)
        _ ≤ 2 ^ (maxTS + k) := Nat.pow_le_pow_right (by norm_num) (by omega)
        _ = 1 * 2 ^ (maxTS + k) := (one_mul _).symm
        _ ≤ ns * 2 ^ (maxTS + k) := Nat.mul_le_mul_right _ hns

/-- The accumulator of the max-texture-scale loop stays a power of two. -/
lemma mtsLoop_pow (fuel : ℕ) : ∀ (maxDim t a : ℕ), (∃ j, t = 2 ^ j) → (∃ j, a = 2 ^ j) →
    ∃ j, mtsLoop fuel maxDim t a = 2 ^ j := by
  induction fuel with
  | zero => intro maxDim t a _ ha; exact ha
  | succ fuel ih =>
      intro maxDim t a ht ha
      rw [mtsLoop]
      split
      · obtain ⟨j, rfl⟩ := ht
        exact ih maxDim (2 ^ j * 2) (2 ^ j) ⟨j + 1, (pow_succ 2 j).symm⟩ ⟨j, rfl⟩
      · exact ha

/-- One unit of fuel beyond the natural exit point of the
max-texture-scale loop changes nothing. -/
lemma mtsLoop_fuel_stable (fuel : ℕ) : ∀ (maxDim t a : ℕ),
    2048 < maxDim * (t * 2 ^ fuel) →
    mtsLoop (fuel + 1) maxDim t a = mtsLoop fuel maxDim t a := by
  induction fuel with
  | zero =>
      intro maxDim t a h
      simp only [pow_zero, mul_one] at h
      rw [mtsLoop, mtsLoop]
      rw [if_neg (by omega)]
  | succ fuel ih =>
      intro maxDim t a h
      rw [mtsLoop]
      conv_rhs => rw [mtsLoop]
      split
      · have h2 : t * 2 ^ (fuel + 1) = t * 2 * 2 ^ fuel := by ring
        exact ih maxDim (t * 2) t (h2 ▸ h)
      · rfl

/-- Fuel 12 is enough for the max-texture-scale loop whenever the canvas
has a positive dimension: any extra fuel produces the same value. -/
lemma mtsLoop_fuel_irrelevant (k maxDim : ℕ) (hm : 0 < maxDim) :
    mtsLoop (12 + k) maxDim 2 1 = computeMaxTextureScale maxDim := by
  induction k with
  | zero => rfl
  | succ k ih =>
      rw [← ih]
      have : 12 + (k + 1) = (12 + k) + 1 := by omega
      rw [this]
      apply mtsLoop_fuel_stable
      have h1 : (2048 : ℕ) < 2 * 2 ^ 12 := by norm_num
      calc (2048 : ℕ) < 2 * 2 ^ 12 := h1
        _ ≤ 2 * 2 ^ (12 + k) := by
            exact Nat.mul_le_mul_left _ (Nat.pow_le_pow_right (by norm_num) (by omega))
        _ = 1 * (2 * 2 ^ (12 + k)) := (one_mul _).symm
        _ ≤ maxDim * (2 * 2 ^ (12 + k)) := Nat.mul_le_mul_right _ hm

/-- Characterization of the max-texture-scale loop on the states it is
actually entered with (`testScale = 2 ^ (j + 1)`, accumulator `2 ^ j`),
given enough fuel: if even the first factor fits the bound, the result is
the largest fitting power of two; if it does not, the accumulator is
returned unchanged. -/
lemma mtsLoop_char (m : ℕ) (_hm : 0 < m) (fuel : ℕ) : ∀ j, 2048 < m * 2 ^ (j + fuel) →
    (m * 2 ^ (j + 1) ≤ 2048 →
      ∃ J, j + 1 ≤ J ∧ mtsLoop fuel m (2 ^ (j + 1)) (2 ^ j) = 2 ^ J ∧
        m * 2 ^ J ≤ 2048 ∧ 2048 < m * 2 ^ (J + 1)) ∧
    (2048 < m * 2 ^ (j + 1) → mtsLoop fuel m (2 ^ (j + 1)) (2 ^ j) = 2 ^ j) := by
  induction fuel with
  | zero =>
      intro j hfuel
      constructor
      · intro hle
        exfalso
        have h1 : m * 2 ^ j ≤ m * 2 ^ (j + 1) :=
          Nat.mul_le_mul_left _ (Nat.pow_le_pow_right (by norm_num) (by omega))
        simp only [Nat.add_zero] at hfuel
        omega
      · intro _; rfl
  | succ fuel ih =>
      intro j hfuel
      have hunfold : mtsLoop (fuel + 1) m (2 ^ (j + 1)) (2 ^ j) =
          if m * 2 ^ (j + 1) ≤ 2048 then mtsLoop fuel m (2 ^ (j + 1) * 2) (2 ^ (j + 1))
          else 2 ^ j := rfl
      by_cases hg : m * 2 ^ (j + 1) ≤ 2048
      · have hpow : (2 : ℕ) ^ (j + 1) * 2 = 2 ^ (j + 2) := (pow_succ 2 (j + 1)).symm
        have hrec : mtsLoop (fuel + 1) m (2 ^ (j + 1)) (2 ^ j) =
            mtsLoop fuel m (2 ^ (j + 2)) (2 ^ (j + 1)) := by
          rw [hunfold, if_pos hg, hpow]
        have hfuel2 : 2048 < m * 2 ^ ((j + 1) + fuel) := by
          have : (j + 1) + fuel = j + (fuel + 1) := by omega
          rw [this]; exact hfuel
        have iha := ih (j + 1) hfuel2
        constructor
        · intro _
          by_cases hg2 : m * 2 ^ (j + 2) ≤ 2048
          · obtain ⟨J, hJle, hJeq, hJfit, hJtop⟩ := iha.1 hg2
            exact ⟨J, by omega, by rw [hrec]; exact hJeq, hJfit, hJtop⟩
          · refine ⟨j + 1, le_rfl, ?_, hg, by show 2048 < m * 2 ^ (j + 2); omega⟩
            rw [hrec]
            exact iha.2 (show 2048 < m * 2 ^ (j + 1 + 1) by
              show 2048 < m * 2 ^ (j + 2); omega)
        · intro hgt; omega
      · constructor
        · intro hle; omega
        · intro _
          rw [hunfold, if_neg hg]

/-- Specification of `computeMaxTextureScale` for a positive canvas
dimension, matching the source loop started at `testScale = 2` with
`this._maxTextureScale = 1`. -/
lemma computeMaxTextureScale_spec (m : ℕ) (hm : 0 < m) :
    (m * 2 ≤ 2048 →
      ∃ J, 1 ≤ J ∧ computeMaxTextureScale m = 2 ^ J ∧
        m * 2 ^ J ≤ 2048 ∧ 2048 < m * 2 ^ (J + 1)) ∧
    (2048 < m * 2 → computeMaxTextureScale m = 1) := by
  have hfuel : 2048 < m * 2 ^ (0 + 12) := by
    have : (2048 : ℕ) < 1 * 2 ^ 12 := by norm_num
    calc (2048 : ℕ) < 1 * 2 ^ 12 := this
      _ ≤ m * 2 ^ 12 := Nat.mul_le_mul_right _ hm
      _ = m * 2 ^ (0 + 12) := by norm_num
  have h := mtsLoop_char m hm 12 0 hfuel
  have hrw : computeMaxTextureScale m = mtsLoop 12 m (2 ^ (0 + 1)) (2 ^ 0) := by
    unfold computeMaxTextureScale; norm_num
  constructor
  · intro hle
    obtain ⟨J, hJle, hJeq, hJfit, hJtop⟩ := h.1 (by norm_num; omega)
    exact ⟨J, hJle, by rw [hrw]; exact hJeq, hJfit, hJtop⟩
  · intro hgt
    rw [hrw]
    have := h.2 (by norm_num; omega)
    simpa using this

/-- The value `computeMaxTextureScale` produces is always a power of two
(hence positive). -/
lemma computeMaxTextureScale_pow (m : ℕ) :
    ∃ j, computeMaxTextureScale m = 2 ^ j :=
  mtsLoop_pow 12 m 2 1 ⟨1, rfl⟩ ⟨0, rfl⟩

/-- The value `computeMaxTextureScale` produces is at least 1. -/
lemma computeMaxTextureScale_pos (m : ℕ) : 1 ≤ computeMaxTextureScale m := by
  obtain ⟨j, hj⟩ := computeMaxTextureScale_pow m
  rw [hj]
  exact Nat.one_le_two_pow

/-! Reachability invariants. -/

/-- The scale invariant maintained by every operation: the texture scale
is a power of two, the maximum texture scale is zero (before the first
load completes) or a power of two, and once it is nonzero the texture
scale never exceeds it. -/
def Inv (s : State) : Prop :=
  (∃ k, s.textureScale = 2 ^ k) ∧
  (s.maxTextureScale = 0 ∨ ∃ k, s.maxTextureScale = 2 ^ k) ∧
  (s.maxTextureScale ≠ 0 → s.textureScale ≤ s.maxTextureScale)

/-- With a zero maximum texture scale the doubling loop gets fuel 0 and
the guard can never pass, so `getTexture` changes nothing. -/
lemma getTexture_fst_of_max_eq_zero (scale : Option (ℚ × ℚ)) (s : State)
    (h : s.maxTextureScale = 0) : (getTexture scale s).1 = s := by
  simp only [getTexture, h]
  simp [upgradeLoop]

/-- A `getTexture` call preserves the scale invariant. -/
lemma getTexture_inv (scale : Option (ℚ × ℚ)) (s : State) (hs : Inv s) :
    Inv (getTexture scale s).1 := by
  obtain ⟨⟨a, hts⟩, hmax, hle⟩ := hs
  rcases hmax with h0 | ⟨b, hmb⟩
  · rw [getTexture_fst_of_max_eq_zero scale s h0]
    exact ⟨⟨a, hts⟩, Or.inl h0, fun hne => absurd h0 hne⟩
  · have htsle : s.textureScale ≤ s.maxTextureScale :=
      hle (by rw [hmb]; positivity)
    have hab : (2 : ℕ) ^ a ≤ 2 ^ b := by rw [← hts, ← hmb]; exact htsle
    obtain ⟨c, hc, hcb⟩ := upgradeLoop_pow s.maxTextureScale
      (min (scaleMaxOf scale / 100) (s.maxTextureScale : ℚ)) a b hab
    simp only [getTexture]
    split
    · refine ⟨⟨c, ?_⟩, Or.inr ⟨b, hmb⟩, fun _ => ?_⟩
      · simp only [← hts, ← hmb] at hc ⊢
        exact hc
      · simp only [← hts, ← hmb] at hc hcb ⊢
        rw [hc]; exact hcb
    · exact ⟨⟨a, hts⟩, Or.inr ⟨b, hmb⟩, hle⟩

/-- Every action preserves the scale invariant. -/
lemma inv_step (s : State) (a : Act) (hs : Inv s) : Inv (step s a) := by
  obtain ⟨hts, hmax, hle⟩ := hs
  cases a with
  | getTex sc => exact getTexture_inv sc s ⟨hts, hmax, hle⟩
  | loadSVG r rc =>
      cases r with
      | none => exact ⟨hts, hmax, hle⟩
      | some p =>
          obtain ⟨sz, vo⟩ := p
          exact ⟨hts, hmax, hle⟩
  | complete i w h b d =>
      simp only [step]
      cases hp : s.pending[i]? with
      | none => exact ⟨hts, hmax, hle⟩
      | some t =>
          cases t with
          | load rc =>
              refine ⟨⟨0, by simp⟩, Or.inr ?_, fun _ => ?_⟩
              · simpa using computeMaxTextureScale_pow (max w h)
              · simpa using computeMaxTextureScale_pos (max w h)
          | upgrade n =>
              unfold Inv
              simp only [upgradeComplete_textureScale, upgradeComplete_maxTextureScale]
              exact ⟨hts, hmax, hle⟩
  | setCenter x y =>
      unfold Inv
      simp only [step, setRotationCenter_textureScale, setRotationCenter_maxTextureScale]
      exact ⟨hts, hmax, hle⟩
  | disposeSkin => exact ⟨hts, hmax, hle⟩

/-- Every reachable state satisfies the scale invariant. -/
lemma reach_inv (s : State) (h : Reach s) : Inv s := by
  induction h with
  | start => exact ⟨⟨0, rfl⟩, Or.inl rfl, fun hne => absurd rfl hne⟩
  | tail a _ ih => exact inv_step _ a ih

/-- The invariant of the pre-first-load phase: the maximum texture scale
is still 0, no texture exists, the texture scale is still 1, and only
load tasks are pending. -/
def PreLoadInv (s : State) : Prop :=
  s.maxTextureScale = 0 ∧ s.texture = none ∧ s.textureScale = 1 ∧
  ∀ t ∈ s.pending, ∃ rc, t = RTask.load rc

/-- Any state reachable without a load completion satisfies the
pre-first-load invariant. -/
lemma reachNoLoad_inv (s : State) (h : ReachNoLoad s) : PreLoadInv s := by
  induction h with
  | start =>
      exact ⟨rfl, rfl, rfl, by intro t ht; simp [initState] at ht⟩
  | tail a hr hnl ih =>
      obtain ⟨hmax, htex, hts, hpend⟩ := ih
      rename_i s'
      cases a with
      | getTex sc =>
          rw [show step s' (Act.getTex sc) = (getTexture sc s').1 from rfl,
            getTexture_fst_of_max_eq_zero sc s' hmax]
          exact ⟨hmax, htex, hts, hpend⟩
      | loadSVG r rc =>
          cases r with
          | none => exact ⟨hmax, htex, hts, hpend⟩
          | some p =>
              obtain ⟨sz, vo⟩ := p
              refine ⟨hmax, htex, hts, ?_⟩
              intro t ht
              simp only [step, setSVG, List.mem_append, List.mem_singleton] at ht
              rcases ht with ht | ht
              · exact hpend t ht
              · exact ⟨rc, ht⟩
      | complete i w h b d =>
          simp only [step]
          cases hp : s'.pending[i]? with
          | none => exact ⟨hmax, htex, hts, hpend⟩
          | some t =>
              cases t with
              | load rc =>
                  exfalso
                  have : isLoadCompletion s' (Act.complete i w h b d) = true := by
                    simp [isLoadCompletion, hp]
                  rw [hnl] at this
                  exact Bool.false_ne_true this
              | upgrade n =>
                  exfalso
                  have hmem : RTask.upgrade n ∈ s'.pending :=
                    List.getElem?_mem hp
                  obtain ⟨rc, hrc⟩ := hpend _ hmem
                  exact RTask.noConfusion hrc
      | setCenter x y =>
          refine ⟨?_, ?_, ?_, ?_⟩ <;> simp only [step, setRotationCenter_maxTextureScale,
            setRotationCenter_texture, setRotationCenter_textureScale,
            setRotationCenter_pending]
          · exact hmax
          · exact htex
          · exact hts
          · exact hpend
      | disposeSkin => exact ⟨hmax, rfl, hts, hpend⟩

/-! A concrete execution used as a witness input and, for the fourth
claim, as a counterexample trace: load a 300 × 300 asset, let its 1x
rasterization complete (maximum texture scale becomes 4), zoom to 200%
(texture scale upgrades to 2), let the upgrade land, then start a second
load whose 1x rasterization is still pending. -/

/-- The explicit rotation center handed to `setSVG` in the example. -/
def exRC : Option (JSNum × JSNum) := some (.num 0, .num 0)

/-- After `setSVG` (first load), before its rasterization completes. -/
def exS1 : State :=
  { initState with
    size := (300, 300)
    viewOffset := (0, 0)
    rawRotationCenter := (.nan, .nan)
    pending := [RTask.load exRC] }

/-- After the 1x rasterization of the first load completes on a
300 × 300 canvas with bitmap tag 7. -/
def exS2 : State :=
  { textureScale := 1
    maxTextureScale := 4
    size := (300, 300)
    viewOffset := (0, 0)
    rawRotationCenter := (.num 0, .num 0)
    baseRotationCenter := ((JSNum.num 0).subQ 0, (JSNum.num 0).subQ 0)
    texture := some 7
    silhouette := some 7
    pending := []
    baseUpdates := 1 }

/-- After `getTexture([200, 0])`: scale upgraded to 2, upgrade task
pending. -/
def exS3 : State :=
  { exS2 with textureScale := 2, pending := [RTask.upgrade 2] }

/-- After the upgrade rasterization lands with bitmap tag 8. -/
def exS4 : State :=
  { exS3 with texture := some 8, silhouette := some 8, pending := [] }

/-- After a second `setSVG` call: its 1x rasterization task is pending
while the texture scale is still 2. -/
def exS5 : State :=
  { exS4 with
    size := (300, 300)
    viewOffset := (0, 0)
    rawRotationCenter := (.nan, .nan)
    pending := [RTask.load exRC] }

lemma exStep1 : step initState (Act.loadSVG (some ((300, 300), (0, 0))) exRC) = exS1 := rfl

lemma exStep2 : step exS1 (Act.complete 0 300 300 7 (.num 0, .num 0)) = exS2 := rfl

lemma exStep3 : step exS2 (Act.getTex (some (200, 0))) = exS3 := by
  show (getTexture (some (200, 0)) exS2).1 = exS3
  norm_num [getTexture, scaleMaxOf, upgradeLoop, exS2, exS3]

lemma exStep4 : step exS3 (Act.complete 0 0 0 8 (.nan, .nan)) = exS4 := rfl

lemma exStep5 : step exS4 (Act.loadSVG (some ((300, 300), (0, 0))) exRC) = exS5 := rfl

lemma reach_exS2 : Reach exS2 := by
  rw [← exStep2, ← exStep1]
  exact Reach.tail _ (Reach.tail _ Reach.start)

lemma reach_exS5 : Reach exS5 := by
  rw [← exStep5, ← exStep4, ← exStep3]
  exact Reach.tail _ (Reach.tail _ (Reach.tail _ reach_exS2))

/-! Characterizations of the state `getTexture` returns. -/

/-- The texture scale after `getTexture` is exactly what the doubling
loop yields on the clamped requested scale. -/
lemma getTexture_fst_textureScale (scale : Option (ℚ × ℚ)) (s : State) :
    (getTexture scale s).1.textureScale =
      upgradeLoop s.maxTextureScale s.maxTextureScale
        (min (scaleMaxOf scale / 100) (s.maxTextureScale : ℚ)) s.textureScale := by
  simp only [getTexture]
  split
  · rfl
  · rename_i h
    exact not_ne_iff.mp h

/-- When the doubling loop returns the current scale unchanged,
`getTexture` mutates nothing. -/
lemma getTexture_fst_of_fix (scale : Option (ℚ × ℚ)) (s : State)
    (h : upgradeLoop s.maxTextureScale s.maxTextureScale
        (min (scaleMaxOf scale / 100) (s.maxTextureScale : ℚ)) s.textureScale =
      s.textureScale) :
    (getTexture scale s).1 = s := by
  simp [getTexture, h]

/-- When the doubling loop moves the scale, `getTexture` records the new
scale and schedules exactly one rasterization task at it. -/
lemma getTexture_fst_update (scale : Option (ℚ × ℚ)) (s : State)
    (h : s.textureScale ≠ upgradeLoop s.maxTextureScale s.maxTextureScale
        (min (scaleMaxOf scale / 100) (s.maxTextureScale : ℚ)) s.textureScale) :
    (getTexture scale s).1 =
      { s with
        textureScale := upgradeLoop s.maxTextureScale s.maxTextureScale
          (min (scaleMaxOf scale / 100) (s.maxTextureScale : ℚ)) s.textureScale
        pending := s.pending ++ [RTask.upgrade (upgradeLoop s.maxTextureScale
          s.maxTextureScale (min (scaleMaxOf scale / 100) (s.maxTextureScale : ℚ))
          s.textureScale)] } := by
  simp only [getTexture, if_pos h]

/-- C1.  `getTexture` collapses the scale vector to
`scaleMax = max(|sx|, |sy|)` (or 100 when absent), clamps it to
`requestedScale = min(scaleMax / 100, maxTextureScale)`, and doubles
`newScale` from `currentTextureScale` while `newScale < maxTextureScale`
and `requestedScale ≥ 1.5 · newScale` (final conjunct, which holds for
every call).  In particular at `currentTextureScale = 1` a request with
`scaleMax = 140` changes nothing and schedules no rasterization (first
conjunct), while a request with `scaleMax = 151` (with the cap at least
2) raises `currentTextureScale` to 2 and schedules one rasterization at
scale 2 (second conjunct). -/
theorem C1_hysteresis :
    (∀ (s : State) (sx sy : ℚ), s.textureScale = 1 → max |sx| |sy| = 140 →
      (getTexture (some (sx, sy)) s).1 = s) ∧
    (∀ (s : State) (sx sy : ℚ), s.textureScale = 1 → 2 ≤ s.maxTextureScale →
      max |sx| |sy| = 151 →
      (getTexture (some (sx, sy)) s).1.textureScale = 2 ∧
      (getTexture (some (sx, sy)) s).1.pending = s.pending ++ [RTask.upgrade 2]) ∧
    (∀ (scale : Option (ℚ × ℚ)) (s : State),
      (getTexture scale s).1.textureScale =
        upgradeLoop s.maxTextureScale s.maxTextureScale
          (min (scaleMaxOf scale / 100) (s.maxTextureScale : ℚ)) s.textureScale) := by
  refine ⟨?_, ?_, fun scale s => getTexture_fst_textureScale scale s⟩
  · intro s sx sy hts hsm
    have hsm' : scaleMaxOf (some (sx, sy)) = 140 := by
      simp only [scaleMaxOf]; exact hsm
    apply getTexture_fst_of_fix
    apply upgradeLoop_stop
    rintro ⟨-, h2⟩
    rw [hts, hsm'] at h2
    have hmin : min ((140 : ℚ) / 100) ((s.maxTextureScale : ℕ) : ℚ) ≤ 140 / 100 :=
      min_le_left _ _
    push_cast at h2
    linarith
  · intro s sx sy hts hmax2 hsm
    have hsm' : scaleMaxOf (some (sx, sy)) = 151 := by
      simp only [scaleMaxOf]; exact hsm
    have hcast : (2 : ℚ) ≤ (s.maxTextureScale : ℚ) := by exact_mod_cast hmax2
    have hloop : upgradeLoop s.maxTextureScale s.maxTextureScale
        (min (scaleMaxOf (some (sx, sy)) / 100) (s.maxTextureScale : ℚ))
        s.textureScale = 2 := by
      obtain ⟨f, hf⟩ : ∃ f, s.maxTextureScale = f + 1 :=
        ⟨s.maxTextureScale - 1, by omega⟩
      rw [hts, hsm', hf]
      rw [upgradeLoop, if_pos ?_]
      · have h2 : (1 : ℕ) * 2 = 2 := rfl
        rw [h2]
        apply upgradeLoop_stop
        rintro ⟨-, habs⟩
        have hm : min ((151 : ℚ) / 100) ((f : ℚ) + 1) ≤ 151 / 100 := min_le_left _ _
        push_cast at habs
        linarith
      · refine ⟨by omega, ?_⟩
        have h151 : (3 / 2 : ℚ) ≤ 151 / 100 := by norm_num
        have hcast' : (3 / 2 : ℚ) ≤ (f : ℚ) + 1 := by
          rw [hf] at hcast; push_cast at hcast; linarith
        push_cast
        rw [mul_one]
        exact le_min h151 hcast'
    have hne : s.textureScale ≠ upgradeLoop s.maxTextureScale s.maxTextureScale
        (min (scaleMaxOf (some (sx, sy)) / 100) (s.maxTextureScale : ℚ))
        s.textureScale := by
      rw [hloop, hts]; norm_num
    rw [getTexture_fst_update _ _ hne]
    constructor
    · simpa using hloop
    · simp [hloop]

/-- Witness for C1 at the concrete loaded state `exS2`
(`currentTextureScale = 1`, `maxTextureScale = 4`). -/
theorem C1_hysteresis_witness :
    exS2.textureScale = 1 ∧ 2 ≤ exS2.maxTextureScale ∧
    (getTexture (some (140, 0)) exS2).1 = exS2 ∧
    (getTexture (some (151, 0)) exS2).1.textureScale = 2 :=
  ⟨rfl, by norm_num [exS2],
    C1_hysteresis.1 exS2 140 0 rfl (by norm_num),
    (C1_hysteresis.2.1 exS2 151 0 rfl (by norm_num [exS2]) (by norm_num)).1⟩

/-- C2.  When the 1x rasterization of a load completes on a canvas of
dimensions `w × h` with `0 < max w h`, the resulting `maxTextureScale` is
the largest power of two `2 ^ j` with `j ≥ 1` such that
`max w h * 2 ^ j ≤ 2048` when such a power exists (first conjunct), and 1
otherwise (second conjunct); for a 300 × 300 canvas it is 4 (third
conjunct). -/
theorem C2_maxTextureScale (w h : ℕ) (hw : 0 < max w h) (rc : Option (JSNum × JSNum))
    (b : ℕ) (d : JSNum × JSNum) (s : State) :
    ((∃ j, 1 ≤ j ∧ max w h * 2 ^ j ≤ 2048) →
      ∃ j, 1 ≤ j ∧ (loadComplete rc w h b d s).maxTextureScale = 2 ^ j ∧
        max w h * 2 ^ j ≤ 2048 ∧ ∀ i, max w h * 2 ^ i ≤ 2048 → i ≤ j) ∧
    ((∀ j, 1 ≤ j → ¬ max w h * 2 ^ j ≤ 2048) →
      (loadComplete rc w h b d s).maxTextureScale = 1) ∧
    (loadComplete rc 300 300 b d s).maxTextureScale = 4 := by
  simp only [loadComplete_maxTextureScale]
  refine ⟨?_, ?_, ?_⟩
  · rintro ⟨j, hj1, hjle⟩
    have h2j : (2 : ℕ) ≤ 2 ^ j := by
      calc (2 : ℕ) = 2 ^ 1 := rfl
        _ ≤ 2 ^ j := Nat.pow_le_pow_right (by norm_num) hj1
    have hm2 : max w h * 2 ≤ 2048 :=
      le_trans (Nat.mul_le_mul_left _ h2j) hjle
    obtain ⟨J, hJ1, hJeq, hJfit, hJtop⟩ :=
      (computeMaxTextureScale_spec (max w h) hw).1 hm2
    refine ⟨J, hJ1, hJeq, hJfit, ?_⟩
    intro i hi
    by_contra hgt
    push_neg at hgt
    have : max w h * 2 ^ (J + 1) ≤ max w h * 2 ^ i :=
      Nat.mul_le_mul_left _ (Nat.pow_le_pow_right (by norm_num) (by omega))
    omega
  · intro hall
    have h1 := hall 1 le_rfl
    have : ¬ max w h * 2 ≤ 2048 := by simpa using h1
    exact (computeMaxTextureScale_spec (max w h) hw).2 (by omega)
  · decide

/-- Witness for C2 at `w = h = 300`. -/
theorem C2_maxTextureScale_witness :
    0 < max 300 300 ∧
    (loadComplete exRC 300 300 7 (.nan, .nan) initState).maxTextureScale = 4 :=
  ⟨by decide,
    (C2_maxTextureScale 300 300 (by decide) exRC 7 (.nan, .nan) initState).2.2⟩

/-- C3, amended.  In every reachable state `currentTextureScale` is a
power of two, and in every reachable state in which
`maxTextureScale ≠ 0` — that is, once the first load has completed its
1x rasterization — `currentTextureScale ≤ maxTextureScale`.  (The claim
as stated, which also asserts the inequality in the freshly constructed
state, fails there: see the counterexample.) -/
theorem C3_scale_invariant (s : State) (h : Reach s) :
    (∃ k, s.textureScale = 2 ^ k) ∧
    (s.maxTextureScale ≠ 0 → s.textureScale ≤ s.maxTextureScale) := by
  obtain ⟨hts, _, hle⟩ := reach_inv s h
  exact ⟨hts, hle⟩

/-- C3 counterexample: the freshly constructed state is reachable and has
`currentTextureScale = 1` but `maxTextureScale = 0`, so
`currentTextureScale` exceeds `maxTextureScale` there. -/
theorem C3_counterexample :
    Reach initState ∧ initState.textureScale = 1 ∧ initState.maxTextureScale = 0 ∧
    ¬ initState.textureScale ≤ initState.maxTextureScale :=
  ⟨Reach.start, rfl, rfl, by decide⟩

/-- Witness for C3 at the loaded state `exS2`. -/
theorem C3_scale_invariant_witness :
    (∃ k, exS2.textureScale = 2 ^ k) ∧
    (exS2.maxTextureScale ≠ 0 → exS2.textureScale ≤ exS2.maxTextureScale) :=
  C3_scale_invariant exS2 reach_exS2

/-- C4, amended.  Only the resolution-upgrade completion callbacks check
for staleness: completing a pending upgrade task whose captured scale no
longer equals `currentTextureScale` merely removes the task and changes
nothing else — in particular neither the texture contents nor the
silhouette.  (The load-pipeline 1x callback performs no such check; see
the counterexample.) -/
theorem C4_stale_upgrade_discarded (s : State) (i n w h b : ℕ) (d : JSNum × JSNum)
    (hp : s.pending[i]? = some (RTask.upgrade n)) (hne : s.textureScale ≠ n) :
    step s (Act.complete i w h b d) = { s with pending := s.pending.eraseIdx i } := by
  simp only [step, hp]
  have hts : ({ s with pending := s.pending.eraseIdx i } : State).textureScale =
      s.textureScale := rfl
  unfold upgradeComplete
  rw [hts, if_neg hne]

/-- Witness for C4 (amended form) on a state with one stale pending
upgrade task. -/
theorem C4_stale_upgrade_discarded_witness :
    ({ initState with pending := [RTask.upgrade 5] } : State).pending[0]? =
      some (RTask.upgrade 5) ∧
    ({ initState with pending := [RTask.upgrade 5] } : State).textureScale ≠ 5 ∧
    step { initState with pending := [RTask.upgrade 5] } (Act.complete 0 9 9 3 (.nan, .nan)) =
      { initState with pending := ([RTask.upgrade 5].eraseIdx 0 : List RTask) } :=
  ⟨rfl, by decide,
    C4_stale_upgrade_discarded { initState with pending := [RTask.upgrade 5] }
      0 5 9 9 3 (.nan, .nan) rfl (by decide)⟩

/-- C4 counterexample: in the reachable state `exS5` a second load has
been issued while `currentTextureScale = 2`; the pending load-pipeline 1x
rasterization task (scale 1 ≠ 2, hence stale in the sense of the claim)
then completes and nevertheless overwrites both the texture contents and
the silhouette, because the `setSVG` callback has no staleness guard. -/
theorem C4_counterexample :
    Reach exS5 ∧
    exS5.pending[0]? = some (RTask.load exRC) ∧
    exS5.textureScale = 2 ∧
    (step exS5 (Act.complete 0 300 300 9 (.num 0, .num 0))).silhouette ≠ exS5.silhouette ∧
    (step exS5 (Act.complete 0 300 300 9 (.num 0, .num 0))).texture ≠ exS5.texture :=
  ⟨reach_exS5, rfl, rfl, by decide, by decide⟩

/-- A single `getTexture` call never decreases the texture scale. -/
lemma getTexture_textureScale_le (scale : Option (ℚ × ℚ)) (s : State) :
    s.textureScale ≤ (getTexture scale s).1.textureScale := by
  rw [getTexture_fst_textureScale]
  exact upgradeLoop_le _ _ _ _

/-- C5.  Within the lifetime of a load, `currentTextureScale` is
monotonically non-decreasing across `getTexture` calls: any sequence of
requests only ever raises it (first conjunct).  In particular, from the
loaded state `exS2`, requesting `scaleMax = 200` and then `scaleMax = 50`
leaves the scale at the value reached after the first request (second
conjunct). -/
theorem C5_no_downgrade :
    (∀ (s : State) (reqs : List (Option (ℚ × ℚ))),
      s.textureScale ≤ (reqs.foldl (fun st sc => (getTexture sc st).1) s).textureScale) ∧
    ((getTexture (some (50, 50)) (getTexture (some (200, 200)) exS2).1).1.textureScale =
      (getTexture (some (200, 200)) exS2).1.textureScale) := by
  constructor
  · intro s reqs
    induction reqs generalizing s with
    | nil => exact le_rfl
    | cons r rest ih =>
        exact le_trans (getTexture_textureScale_le r s) (ih (getTexture r s).1)
  · have h1 : (getTexture (some (200, 200)) exS2).1 = exS3 := by
      norm_num [getTexture, scaleMaxOf, upgradeLoop, exS2, exS3]
    have h2 : (getTexture (some (50, 50)) exS3).1 = exS3 := by
      apply getTexture_fst_of_fix
      apply upgradeLoop_stop
      rintro ⟨-, habs⟩
      norm_num [scaleMaxOf, exS3, exS2] at habs
    rw [h1, h2]

/-- C6.  A successful load updates `size` (the natural size) and
`viewOffset` synchronously — the state `setSVG` returns already carries
the metadata the rasterizer reported — and resets `rawRotationCenter` to
the unresolved `[NaN, NaN]` sentinel, while the 1x rasterization task is
still pending (it has merely been queued), so a caller reading the size
right after `setSVG` returns sees the new value regardless of
rasterization timing. -/
theorem C6_synchronous_metadata (s : State) (sz vo : ℚ × ℚ)
    (rc : Option (JSNum × JSNum)) :
    (setSVG (some (sz, vo)) rc s).size = sz ∧
    (setSVG (some (sz, vo)) rc s).viewOffset = vo ∧
    (setSVG (some (sz, vo)) rc s).rawRotationCenter = (JSNum.nan, JSNum.nan) ∧
    (setSVG (some (sz, vo)) rc s).pending = s.pending ++ [RTask.load rc] :=
  ⟨rfl, rfl, rfl, rfl⟩

/-- When the guard of `setRotationCenter` fails, nothing happens. -/
lemma setRotationCenter_noop (x y : JSNum) (s : State)
    (h : (!jsEq x s.rawRotationCenter.1 || !jsEq y s.rawRotationCenter.2) = false) :
    setRotationCenter x y s = s := by
  unfold setRotationCenter
  simp [h]

/-- When the guard of `setRotationCenter` passes, the raw center is
stored and the base collaborator receives the view-space center. -/
lemma setRotationCenter_apply (x y : JSNum) (s : State)
    (h : (!jsEq x s.rawRotationCenter.1 || !jsEq y s.rawRotationCenter.2) = true) :
    setRotationCenter x y s =
      { s with
        rawRotationCenter := (x, y)
        baseRotationCenter := (x.subQ s.viewOffset.1, y.subQ s.viewOffset.2)
        baseUpdates := s.baseUpdates + 1 } := by
  unfold setRotationCenter
  rw [if_pos h]

/-- Comparing any number against the `NaN` sentinel with `===` yields
false. -/
lemma jsEq_nan_right (x : JSNum) : jsEq x .nan = false := by
  cases x <;> rfl

/-- Comparing an ordinary number with itself yields true. -/
lemma jsEq_self (q : ℚ) : jsEq (.num q) (.num q) = true := by
  simp [jsEq]

/-- C7.  For every state and ordinary coordinates `(x, y)`, if the call
applies (the pair differs from the stored raw rotation center under the
NaN-aware comparison), then afterwards `rawRotationCenter = (x, y)` and
the rotation center of the base collaborator equals exactly
`(x - viewOffset.x, y - viewOffset.y)`. -/
theorem C7_rotation_center (s : State) (x y : ℚ)
    (h : (!jsEq (.num x) s.rawRotationCenter.1 ||
        !jsEq (.num y) s.rawRotationCenter.2) = true) :
    (setRotationCenter (.num x) (.num y) s).rawRotationCenter = (.num x, .num y) ∧
    (setRotationCenter (.num x) (.num y) s).baseRotationCenter =
      (.num (x - s.viewOffset.1), .num (y - s.viewOffset.2)) := by
  rw [setRotationCenter_apply _ _ _ h]
  exact ⟨rfl, rfl⟩

/-- Witness for C7 on the freshly constructed state. -/
theorem C7_rotation_center_witness :
    (!jsEq (.num 3) initState.rawRotationCenter.1 ||
      !jsEq (.num 4) initState.rawRotationCenter.2) = true ∧
    (setRotationCenter (.num 3) (.num 4) initState).rawRotationCenter =
      (.num 3, .num 4) ∧
    (setRotationCenter (.num 3) (.num 4) initState).baseRotationCenter =
      (.num (3 - initState.viewOffset.1), .num (4 - initState.viewOffset.2)) :=
  ⟨rfl, (C7_rotation_center initState 3 4 rfl).1, (C7_rotation_center initState 3 4 rfl).2⟩

/-- C8.  `setRotationCenter` is idempotent for ordinary (non-NaN) values:
a second call with the same pair is a no-op, so the base collaborator is
updated at most once for the two calls (first conjunct); and because the
unresolved `[NaN, NaN]` sentinel never compares equal to any input, the
first `setRotationCenter` call after a load always applies — for every
input, even NaN (second conjunct). -/
theorem C8_idempotent :
    (∀ (s : State) (x y : ℚ),
      setRotationCenter (.num x) (.num y) (setRotationCenter (.num x) (.num y) s) =
        setRotationCenter (.num x) (.num y) s ∧
      (setRotationCenter (.num x) (.num y)
          (setRotationCenter (.num x) (.num y) s)).baseUpdates =
        (setRotationCenter (.num x) (.num y) s).baseUpdates) ∧
    (∀ (s : State) (x y : JSNum), s.rawRotationCenter = (JSNum.nan, JSNum.nan) →
      (setRotationCenter x y s).baseUpdates = s.baseUpdates + 1) := by
  constructor
  · intro s x y
    have key : setRotationCenter (.num x) (.num y) (setRotationCenter (.num x) (.num y) s) =
        setRotationCenter (.num x) (.num y) s := by
      by_cases hg : (!jsEq (.num x) s.rawRotationCenter.1 ||
          !jsEq (.num y) s.rawRotationCenter.2) = true
      · rw [setRotationCenter_apply _ _ _ hg]
        apply setRotationCenter_noop
        simp [jsEq_self]
      · have hg' : (!jsEq (.num x) s.rawRotationCenter.1 ||
            !jsEq (.num y) s.rawRotationCenter.2) = false := by
          revert hg
          cases (!jsEq (.num x) s.rawRotationCenter.1 ||
            !jsEq (.num y) s.rawRotationCenter.2) <;> simp
        rw [setRotationCenter_noop _ _ _ hg']
        exact setRotationCenter_noop _ _ _ hg'
    exact ⟨key, by rw [key]⟩
  · intro s x y hraw
    have hg : (!jsEq x s.rawRotationCenter.1 || !jsEq y s.rawRotationCenter.2) = true := by
      rw [hraw]
      simp [jsEq_nan_right]
    rw [setRotationCenter_apply _ _ _ hg]

/-- Witness for C8 (the part with a hypothesis: the first call after a
load always applies). -/
theorem C8_idempotent_witness :
    initState.rawRotationCenter = (JSNum.nan, JSNum.nan) ∧
    (setRotationCenter (.num 5) (.num 6) initState).baseUpdates =
      initState.baseUpdates + 1 :=
  ⟨rfl, C8_idempotent.2 initState (.num 5) (.num 6) rfl⟩

/-- C9.  When the rasterizer rejects the vector source (`loadString`
throws), the load fails and the state is untouched — in particular
`size` (the natural size) and `viewOffset` keep their pre-call values,
since the assignments after `loadString` never run. -/
theorem C9_failed_load_no_mutation (s : State) (rc : Option (JSNum × JSNum)) :
    setSVG none rc s = s ∧
    (setSVG none rc s).size = s.size ∧
    (setSVG none rc s).viewOffset = s.viewOffset :=
  ⟨rfl, rfl, rfl⟩

/-- C10.  Before the first load has completed its 1x rasterization,
`getTexture` with any scale argument returns the absent texture handle
(`none`) and triggers no rasterization (the state, including the pending
task list, is unchanged): `maxTextureScale` is still 0, so
`requestedScale = min(scaleMax / 100, 0)` can never reach
`1.5 × currentTextureScale = 1.5` and the upgrade branch is not
entered. -/
theorem C10_null_before_first_load (s : State) (scale : Option (ℚ × ℚ))
    (h : ReachNoLoad s) :
    (getTexture scale s).2 = none ∧ (getTexture scale s).1 = s := by
  obtain ⟨hmax, htex, _, _⟩ := reachNoLoad_inv s h
  have h1 : (getTexture scale s).1 = s := getTexture_fst_of_max_eq_zero scale s hmax
  refine ⟨?_, h1⟩
  show (getTexture scale s).1.texture = none
  rw [h1]
  exact htex

/-- Witness for C10 on the freshly constructed state. -/
theorem C10_null_before_first_load_witness :
    ReachNoLoad initState ∧
    (getTexture (some (500, 500)) initState).2 = none ∧
    (getTexture (some (500, 500)) initState).1 = initState :=
  ⟨ReachNoLoad.start,
    (C10_null_before_first_load initState (some (500, 500)) ReachNoLoad.start).1,
    (C10_null_before_first_load initState (some (500, 500)) ReachNoLoad.start).2⟩

end SVGSkin
